import Mathlib

/-!
Shallow embedding of `src/homework.py` (fitness tracker module).

Python floats are modelled as rationals (all constants in the source are
exact decimals), Python `//` on floats as real division followed by
`Int.floor`, and string formatting `{:.3f}` as an explicit fixed-point
renderer with three fractional digits.
-/

/-- Embeds the dataclass `InfoMessage`: name of the training class plus the
four numeric summary fields. -/
structure InfoMessage where
  training_type : String
  duration : ℚ
  distance : ℚ
  speed : ℚ
  calories : ℚ

/-- Rounds a rational to the nearest integer, ties to even — the rounding
used by Python fixed-point formatting. -/
def roundHalfEven (q : ℚ) : ℤ :=
  let n := Int.floor q
  let r := q - n
  if r < 1/2 then n
  else if 1/2 < r then n + 1
  else if n % 2 = 0 then n else n + 1

/-- Renders a natural number below 1000 as exactly three decimal digits,
zero-padded — the fractional part of a `{:.3f}` field. -/
def pad3 (k : ℕ) : String :=
  String.mk [Nat.digitChar (k / 100 % 10), Nat.digitChar (k / 10 % 10), Nat.digitChar (k % 10)]

/-- Embeds Python `format(x, ".3f")`: fixed-point with exactly three digits
after the decimal point. -/
def formatFix3 (q : ℚ) : String :=
  let m := roundHalfEven (q * 1000)
  let sign := if m < 0 then "-" else ""
  sign ++ Nat.repr (m.natAbs / 1000) ++ "." ++ pad3 (m.natAbs % 1000)

/-- Embeds `InfoMessage.get_message`: `SENTENCE.format(training_type,
duration, distance, speed, calories)` where `SENTENCE` is the fixed
template of `homework.py` lines 16-21 with `{i:.3f}` fields. -/
def InfoMessage.get_message (msg : InfoMessage) : String :=
  "Training type: " ++ msg.training_type ++ "; Duration: " ++ formatFix3 msg.duration
    ++ " h.; Distance: " ++ formatFix3 msg.distance ++ " km; Speed: "
    ++ formatFix3 msg.speed ++ " km/h; Calories: " ++ formatFix3 msg.calories ++ "."

/-- The three concrete training classes of `homework.py` as a closed variant
set: `Running(action, duration, weight)`, `SportsWalking(action, duration,
weight, height)`, `Swimming(action, duration, weight, length_pool,
count_pool)`. The abstract base class itself is never instantiated by the
program. -/
inductive Training where
  | Running (action duration weight : ℚ)
  | SportsWalking (action duration weight height : ℚ)
  | Swimming (action duration weight length_pool count_pool : ℚ)

/-- Class constant `Training.M_IN_KM = 1000`. -/
def Training.M_IN_KM : ℚ := 1000

/-- Class constant `Running.CAL_1 = 18`. -/
def Running.CAL_1 : ℚ := 18

/-- Class constant `Running.CAL_2 = 20`. -/
def Running.CAL_2 : ℚ := 20

/-- Class constant `SportsWalking.CAL_1 = 0.035`. -/
def SportsWalking.CAL_1 : ℚ := 0.035

/-- Class constant `SportsWalking.CAL_2 = 0.029`. -/
def SportsWalking.CAL_2 : ℚ := 0.029

/-- Class constant `Swimming.LEN_STEP = 1.38` (overrides the base 0.65). -/
def Swimming.LEN_STEP : ℚ := 1.38

/-- Class constant `Swimming.CAL_1 = 1.1`. -/
def Swimming.CAL_1 : ℚ := 1.1

/-- Class constant `Swimming.CAL_2 = 2`. -/
def Swimming.CAL_2 : ℚ := 2

/-- Attribute `self.action` set by `Training.__init__`. -/
def Training.action : Training → ℚ
  | .Running action _ _ => action
  | .SportsWalking action _ _ _ => action
  | .Swimming action _ _ _ _ => action

/-- Attribute `self.duration` set by `Training.__init__`. -/
def Training.duration : Training → ℚ
  | .Running _ duration _ => duration
  | .SportsWalking _ duration _ _ => duration
  | .Swimming _ duration _ _ _ => duration

/-- Attribute `self.weight` set by `Training.__init__`. -/
def Training.weight : Training → ℚ
  | .Running _ _ weight => weight
  | .SportsWalking _ _ weight _ => weight
  | .Swimming _ _ weight _ _ => weight

/-- Python attribute lookup `self.LEN_STEP`: the base class sets 0.65 and
`Swimming` overrides it with 1.38. -/
def Training.LEN_STEP : Training → ℚ
  | .Swimming .. => Swimming.LEN_STEP
  | _ => 0.65

/-- Embeds `Training.get_distance`:
`self.action * self.LEN_STEP / self.M_IN_KM`. Not overridden anywhere. -/
def Training.get_distance (t : Training) : ℚ :=
  t.action * t.LEN_STEP / Training.M_IN_KM

/-- Embeds `get_mean_speed`: the base class computes
`self.get_distance() / self.duration`; `Swimming` overrides it with
`self.length_pool * self.count_pool / self.M_IN_KM / self.duration`. -/
def Training.get_mean_speed (t : Training) : ℚ :=
  match t with
  | .Swimming _ duration _ length_pool count_pool =>
      length_pool * count_pool / Training.M_IN_KM / duration
  | t => t.get_distance / t.duration

/-- Embeds `get_spent_calories` of each concrete class. The base class only
raises `NotImplementedError`, and every variant overrides it, so the
embedding is total over the three variants. Python float `//` in the
walking formula is floor division: `Int.floor` of the real quotient. -/
def Training.get_spent_calories (t : Training) : ℚ :=
  match t with
  | .Running _ duration weight =>
      (Running.CAL_1 * t.get_mean_speed - Running.CAL_2)
        * weight / Training.M_IN_KM * duration * 60
  | .SportsWalking _ duration weight height =>
      (SportsWalking.CAL_1 * weight
        + ((⌊t.get_mean_speed ^ 2 / height⌋ : ℤ) : ℚ) * SportsWalking.CAL_2 * weight)
        * (duration * 60)
  | .Swimming _ duration weight _ _ =>
      (t.get_mean_speed + Swimming.CAL_1) * Swimming.CAL_2 * weight * duration

/-- Embeds `self.__class__.__name__`: the concrete class name of the
instance. -/
def Training.class_name : Training → String
  | .Running .. => "Running"
  | .SportsWalking .. => "SportsWalking"
  | .Swimming .. => "Swimming"

/-- Embeds `Training.show_training_info`: builds an `InfoMessage` from
`self.__class__.__name__`, `self.duration`, `get_distance()`,
`get_mean_speed()`, `get_spent_calories()`. -/
def Training.show_training_info (t : Training) : InfoMessage :=
  { training_type := t.class_name
    duration := t.duration
    distance := t.get_distance
    speed := t.get_mean_speed
    calories := t.get_spent_calories }

/-- The ways `read_package` can fail at runtime:
`unknownWorkoutKind` models the `KeyError` raised by the dict lookup
`training_code[workout_type]` when the code is not a key, and
`malformedArguments` models the `TypeError` raised by the constructor call
`training_code[workout_type](*data)` when the tuple arity does not match
the constructor signature. Neither failure constructs a workout object. -/
inductive ReadPackageError where
  | unknownWorkoutKind (workout_type : String)
  | malformedArguments

/-- Embeds `read_package(workout_type, data)`: looks up `workout_type` in
the dict `\x7b'SWM': Swimming, 'RUN': Running, 'WLK': SportsWalking\x7d`
(a missing key raises before any constructor runs) and then calls the
selected constructor with the unpacked `data` tuple (arity 5, 3, 4
respectively; a mismatch raises at the call). -/
def read_package (workout_type : String) (data : List ℚ) : Except ReadPackageError Training :=
  if workout_type = "SWM" then
    match data with
    | [action, duration, weight, length_pool, count_pool] =>
        .ok (.Swimming action duration weight length_pool count_pool)
    | _ => .error .malformedArguments
  else if workout_type = "RUN" then
    match data with
    | [action, duration, weight] => .ok (.Running action duration weight)
    | _ => .error .malformedArguments
  else if workout_type = "WLK" then
    match data with
    | [action, duration, weight, height] => .ok (.SportsWalking action duration weight height)
    | _ => .error .malformedArguments
  else
    .error (.unknownWorkoutKind workout_type)


/-- Every decimal digit character produced by `Nat.digitChar` on a value
below ten satisfies `Char.isDigit`. -/
theorem digitChar_isDigit : ∀ d : ℕ, d < 10 → (Nat.digitChar d).isDigit = true := by decide

/-- The padded fractional part always has exactly three characters. -/
theorem pad3_length (k : ℕ) : (pad3 k).length = 3 := rfl

/-- The padded fractional part consists of decimal digits only. -/
theorem pad3_digits (k : ℕ) : (pad3 k).toList.all Char.isDigit = true := by
  have h1 := digitChar_isDigit (k / 100 % 10) (Nat.mod_lt _ (by norm_num))
  have h2 := digitChar_isDigit (k / 10 % 10) (Nat.mod_lt _ (by norm_num))
  have h3 := digitChar_isDigit (k % 10) (Nat.mod_lt _ (by norm_num))
  simp [pad3, String.toList, h1, h2, h3]

/-- C1 counterexample: at the swimming session with actionCount 720,
durationHours 2, weightKg 80, poolLengthM 25, poolLaps 40, the computed
calories differ from `(meanSpeedKmh + 1.1) * 2 * weightKg`: the source
multiplies by `self.duration` as well, giving 512 instead of 256. -/
theorem swimming_calories_no_duration_cex :
    (Training.Swimming 720 2 80 25 40).get_spent_calories ≠
      ((Training.Swimming 720 2 80 25 40).get_mean_speed + 1.1) * 2 * 80 := by
  norm_num [Training.get_spent_calories, Training.get_mean_speed, Training.M_IN_KM,
    Swimming.CAL_1, Swimming.CAL_2]

/-- C1 amended: for every swimming session the computed calories equal
`(meanSpeedKmh + 1.1) * 2 * weightKg * durationHours` — the source formula
does multiply by the duration. -/
theorem swimming_calories_amended :
    ∀ action duration weight length_pool count_pool : ℚ,
      (Training.Swimming action duration weight length_pool count_pool).get_spent_calories =
        ((Training.Swimming action duration weight length_pool count_pool).get_mean_speed + 1.1)
          * 2 * weight * duration :=
  fun _ _ _ _ _ => rfl

/-- C2: for each known kind code, an argument list whose length differs from
the expected arity (3 for RUN, 4 for WLK, 5 for SWM) makes `read_package`
fail with the malformed-arguments error, so no workout object is
constructed. -/
theorem read_package_arity_mismatch (workout_type : String) (data : List ℚ)
    (h : (workout_type = "RUN" ∧ data.length ≠ 3)
        ∨ (workout_type = "WLK" ∧ data.length ≠ 4)
        ∨ (workout_type = "SWM" ∧ data.length ≠ 5)) :
    read_package workout_type data = .error .malformedArguments := by
  rcases h with ⟨rfl, hl⟩ | ⟨rfl, hl⟩ | ⟨rfl, hl⟩ <;>
    rcases data with _ | ⟨a, _ | ⟨b, _ | ⟨c, _ | ⟨d, _ | ⟨e, _ | ⟨f, rest⟩⟩⟩⟩⟩⟩ <;>
      first
        | rfl
        | exact absurd rfl hl

/-- C2 witness: code RUN with only two arguments fails with the
malformed-arguments error. -/
theorem read_package_arity_mismatch_witness :
    read_package "RUN" [15000, 1] = .error .malformedArguments :=
  read_package_arity_mismatch "RUN" [15000, 1] (Or.inl ⟨rfl, by decide⟩)

/-- C3: for every kind code outside the three known ones, `read_package`
fails with the unknown-workout-kind error carrying the code, for any
argument list, and construction is aborted. -/
theorem read_package_unknown_kind (workout_type : String) (data : List ℚ)
    (h1 : workout_type ≠ "SWM") (h2 : workout_type ≠ "RUN") (h3 : workout_type ≠ "WLK") :
    read_package workout_type data = .error (.unknownWorkoutKind workout_type) := by
  unfold read_package
  rw [if_neg h1, if_neg h2, if_neg h3]

/-- C3 witness: code CYC fails with the unknown-workout-kind error. -/
theorem read_package_unknown_kind_witness :
    read_package "CYC" [720, 1, 80] = .error (.unknownWorkoutKind "CYC") :=
  read_package_unknown_kind "CYC" [720, 1, 80] (by decide) (by decide) (by decide)

/-- C4: for every walking session with positive duration and height, the
computed calories equal
`(0.035*weightKg + floorDiv(meanSpeedKmh^2, heightCm) * 0.029 * weightKg) * durationHours * 60`,
where floorDiv is real division followed by floor toward negative infinity;
in particular floorDiv of 34.2225 by 180 is 0. -/
theorem walking_calories_formula :
    (∀ action duration weight height : ℚ, 0 < duration → 0 < height →
      (Training.SportsWalking action duration weight height).get_spent_calories =
        (0.035 * weight
          + ((⌊(Training.SportsWalking action duration weight height).get_mean_speed ^ 2
                / height⌋ : ℤ) : ℚ) * 0.029 * weight) * duration * 60)
    ∧ (⌊(34.2225 : ℚ) / 180⌋ : ℤ) = 0 := by
  constructor
  · intro action duration weight height _ _
    simp only [Training.get_spent_calories, SportsWalking.CAL_1, SportsWalking.CAL_2]
    ring
  · norm_num

/-- C4 witness: the formula instantiated at the sample walking session
(actionCount 9000, durationHours 1, weightKg 75, heightCm 180). -/
theorem walking_calories_formula_witness :
    (0:ℚ) < 1 ∧ (0:ℚ) < 180 ∧
      (Training.SportsWalking 9000 1 75 180).get_spent_calories =
        (0.035 * 75
          + ((⌊(Training.SportsWalking 9000 1 75 180).get_mean_speed ^ 2 / 180⌋ : ℤ) : ℚ)
            * 0.029 * 75) * 1 * 60 :=
  ⟨by norm_num, by norm_num,
    walking_calories_formula.1 9000 1 75 180 (by norm_num) (by norm_num)⟩

/-- C5: for every running session with positive duration the computed
calories equal `(18 * meanSpeedKmh - 20) * weightKg / 1000 * durationHours * 60`;
in particular the sample session (actionCount 15000, durationHours 1,
weightKg 75) burns 699.75 kcal. -/
theorem running_calories_formula :
    (∀ action duration weight : ℚ, 0 < duration →
      (Training.Running action duration weight).get_spent_calories =
        (18 * (Training.Running action duration weight).get_mean_speed - 20)
          * weight / 1000 * duration * 60)
    ∧ (Training.Running 15000 1 75).get_spent_calories = 699.75 := by
  constructor
  · intro action duration weight _
    simp only [Training.get_spent_calories, Running.CAL_1, Running.CAL_2, Training.M_IN_KM]
  · norm_num [Training.get_spent_calories, Training.get_mean_speed, Training.get_distance,
      Training.action, Training.duration, Training.LEN_STEP, Training.M_IN_KM,
      Running.CAL_1, Running.CAL_2]

/-- C5 witness: the formula instantiated at the sample running session. -/
theorem running_calories_formula_witness :
    (0:ℚ) < 1 ∧ (Training.Running 15000 1 75).get_spent_calories =
      (18 * (Training.Running 15000 1 75).get_mean_speed - 20) * 75 / 1000 * 1 * 60 :=
  ⟨by norm_num, running_calories_formula.1 15000 1 75 (by norm_num)⟩

/-- C6: for every swimming session with positive duration the mean speed
equals `poolLengthM * poolLaps / 1000 / durationHours`, and two swimming
sessions that differ only in actionCount have equal mean speed. -/
theorem swimming_mean_speed_formula :
    (∀ action duration weight length_pool count_pool : ℚ, 0 < duration →
      (Training.Swimming action duration weight length_pool count_pool).get_mean_speed =
        length_pool * count_pool / 1000 / duration)
    ∧ (∀ action1 action2 duration weight length_pool count_pool : ℚ,
        (Training.Swimming action1 duration weight length_pool count_pool).get_mean_speed =
          (Training.Swimming action2 duration weight length_pool count_pool).get_mean_speed) :=
  ⟨fun _ _ _ _ _ _ => rfl, fun _ _ _ _ _ _ => rfl⟩

/-- C6 witness: the mean-speed formula at the sample swimming session. -/
theorem swimming_mean_speed_formula_witness :
    (0:ℚ) < 1 ∧ (Training.Swimming 720 1 80 25 40).get_mean_speed = 25 * 40 / 1000 / 1 :=
  ⟨by norm_num, swimming_mean_speed_formula.1 720 1 80 25 40 (by norm_num)⟩

/-- C7: for every swimming session the distance equals
`actionCount * 1.38 / 1000` (the base formula with swimming's own step
length), and at actionCount 720 the rendered three-decimal value is 0.994. -/
theorem swimming_distance_formula :
    (∀ action duration weight length_pool count_pool : ℚ,
      (Training.Swimming action duration weight length_pool count_pool).get_distance =
        action * 1.38 / 1000)
    ∧ formatFix3 ((Training.Swimming 720 1 80 25 40).get_distance) = "0.994" := by
  constructor
  · intro action duration weight length_pool count_pool
    rfl
  · have h : roundHalfEven ((Training.Swimming 720 1 80 25 40).get_distance * 1000) = 994 := by
      norm_num [roundHalfEven, Training.get_distance, Training.action, Training.LEN_STEP,
        Training.M_IN_KM, Swimming.LEN_STEP]
    simp only [formatFix3, h]
    rfl

/-- C8: every rendered summary follows the fixed template
`Training type: ...; Duration: ... h.; Distance: ... km; Speed: ... km/h; Calories: ... .`
with each numeric field rendered by the three-decimal fixed-point
formatter, every formatted field carrying exactly three decimal digits
after its decimal point, and the whole message ending in a period after
the calories figure. -/
theorem info_message_format (msg : InfoMessage) :
    msg.get_message =
        "Training type: " ++ msg.training_type ++ "; Duration: " ++ formatFix3 msg.duration
          ++ " h.; Distance: " ++ formatFix3 msg.distance ++ " km; Speed: "
          ++ formatFix3 msg.speed ++ " km/h; Calories: " ++ formatFix3 msg.calories ++ "."
      ∧ (∀ q : ℚ, ∃ intPart digits, formatFix3 q = intPart ++ "." ++ digits
          ∧ digits.length = 3 ∧ digits.toList.all Char.isDigit = true)
      ∧ ∃ s, msg.get_message = s ++ "." := by
  refine ⟨rfl, fun q => ?_, ⟨_, rfl⟩⟩
  exact ⟨(if roundHalfEven (q * 1000) < 0 then "-" else "")
      ++ Nat.repr ((roundHalfEven (q * 1000)).natAbs / 1000),
    pad3 ((roundHalfEven (q * 1000)).natAbs % 1000), rfl, pad3_length _, pad3_digits _⟩

/-- C9: for all three variants, with positive duration and non-negative
action, pool length and lap count, both the distance and the mean speed
are non-negative. -/
theorem distance_speed_nonneg (action duration weight height length_pool count_pool : ℚ)
    (hd : 0 < duration) (ha : 0 ≤ action) (hl : 0 ≤ length_pool) (hc : 0 ≤ count_pool) :
    (0 ≤ (Training.Running action duration weight).get_distance
        ∧ 0 ≤ (Training.Running action duration weight).get_mean_speed)
      ∧ (0 ≤ (Training.SportsWalking action duration weight height).get_distance
        ∧ 0 ≤ (Training.SportsWalking action duration weight height).get_mean_speed)
      ∧ (0 ≤ (Training.Swimming action duration weight length_pool count_pool).get_distance
        ∧ 0 ≤ (Training.Swimming action duration weight length_pool count_pool).get_mean_speed) := by
  simp only [Training.get_distance, Training.get_mean_speed, Training.action,
    Training.duration, Training.LEN_STEP, Training.M_IN_KM, Swimming.LEN_STEP]
  have h65 : (0:ℚ) ≤ 0.65 := by norm_num
  have h138 : (0:ℚ) ≤ 1.38 := by norm_num
  have h1000 : (0:ℚ) ≤ 1000 := by norm_num
  have hrun : 0 ≤ action * 0.65 / 1000 := div_nonneg (mul_nonneg ha h65) h1000
  have hswimd : 0 ≤ action * 1.38 / 1000 := div_nonneg (mul_nonneg ha h138) h1000
  exact ⟨⟨hrun, div_nonneg hrun hd.le⟩, ⟨hrun, div_nonneg hrun hd.le⟩,
    hswimd, div_nonneg (div_nonneg (mul_nonneg hl hc) h1000) hd.le⟩

/-- C9 witness: the invariant instantiated at the sample sessions. -/
theorem distance_speed_nonneg_witness :
    (0 ≤ (Training.Running 720 1 80).get_distance
        ∧ 0 ≤ (Training.Running 720 1 80).get_mean_speed)
      ∧ (0 ≤ (Training.SportsWalking 720 1 80 180).get_distance
        ∧ 0 ≤ (Training.SportsWalking 720 1 80 180).get_mean_speed)
      ∧ (0 ≤ (Training.Swimming 720 1 80 25 40).get_distance
        ∧ 0 ≤ (Training.Swimming 720 1 80 25 40).get_mean_speed) :=
  distance_speed_nonneg 720 1 80 180 25 40 (by norm_num) (by norm_num)
    (by norm_num) (by norm_num)

/-- C10: the training type placed in the summary is the implementing
class's own name — `Running`, `SportsWalking` or `Swimming` — so a walking
session renders as `SportsWalking`. -/
theorem training_type_is_class_name :
    (∀ t : Training, t.show_training_info.training_type = t.class_name)
      ∧ (∀ action duration weight height : ℚ,
          (Training.SportsWalking action duration weight height).show_training_info.training_type
            = "SportsWalking")
      ∧ (∀ action duration weight : ℚ,
          (Training.Running action duration weight).show_training_info.training_type = "Running")
      ∧ (∀ action duration weight length_pool count_pool : ℚ,
          (Training.Swimming action duration weight length_pool
              count_pool).show_training_info.training_type = "Swimming") :=
  ⟨fun _ => rfl, fun _ _ _ _ => rfl, fun _ _ _ => rfl, fun _ _ _ _ _ => rfl⟩
